import Mathlib

/-!
Shallow embedding of the QuizMaster quiz-session core (src/script.js,
first module copy, lines 1-1286).

The quiz session lives in a single mutable `STATE` object; the handlers
(`handleAnswer`, `handleTimeOut`, `nextQuestion`, the three lifelines,
`startGame`, `endGame`, `stateReset`, the timer callback) are embedded as
pure functions `GameState → GameState`.  JavaScript numbers are embedded
as `Int`/`Nat` (all quiz quantities are integers) except inside the two
scoring expressions, where the source multiplies by `0.1` and divides
before `Math.round`; those expressions are embedded over `ℚ` with
Mathlib's `round` (round half up, as `Math.round`).

DOM facts the handlers branch on are carried as booleans:
`nextBtnDisabled` (`ui.nextBtn.disabled`), `cardsActive` (the option
cards still have their `onclick` handlers), `quizScreen` (the quiz screen
is visible).  The deferred callbacks the source schedules with
`setTimeout` — the 800 ms result-animation callback in `handleAnswer` and
the 10 s unfreeze callback in `useFreeze` — are carried as pending-event
flags (`pendingAnim`, `pendingUnfreeze`) whose firing is a separate step.
The next button starts disabled in the page markup (the markup is not
part of script.js), so `initState` starts with `nextBtnDisabled = true`.
-/

namespace QuizMaster

/-- Constant `CONSTANTS.TIMER_EASY` (script.js line 16). -/
def TIMER_EASY : Int := 60

/-- Constant `CONSTANTS.TIMER_MEDIUM` (line 17). -/
def TIMER_MEDIUM : Int := 50

/-- Constant `CONSTANTS.TIMER_HARD` (line 18). -/
def TIMER_HARD : Int := 40

/-- Constant `CONSTANTS.TIMER_BASE` (line 19). -/
def TIMER_BASE : Int := 15

/-- Constant `CONSTANTS.POINTS_PER_Q` (line 20). -/
def POINTS_PER_Q : Int := 10

/-- A question record as produced by `fetchQuestions` (lines 555-558):
the Firestore fields plus `answers`, the shuffled list
`[...incorrect_answers, correct_answer]`, and the `userSelected` slot
written on resolution (`none` = unset, `some none` = timeout's `null`,
`some (some a)` = the clicked answer). -/
structure Question where
  question : String
  correct_answer : String
  incorrect_answers : List String
  answers : List String
  userSelected : Option (Option String) := none
deriving Repr, DecidableEq

/-- The `STATE.lifelines` record (line 34). -/
structure Lifelines where
  fifty : Bool
  freeze : Bool
  skip : Bool
deriving Repr, DecidableEq

/-- The mutable `STATE` object (lines 25-42) plus the DOM/timer facts the
handlers branch on (see the file comment). `accuracyPercent` holds the
accuracy `endGame` computes for the result screen, `hiddenAnswers` the
answers `use5050` turned invisible. `currentQuestionIndex` is the
property `stateReset` (line 1197) assigns; no other session code touches
it (`none` = the property was never created on `STATE`). -/
structure GameState where
  questions : List Question
  currIndex : Nat
  score : Int
  streak : Nat
  timerRunning : Bool
  timeLeft : Int
  difficulty : String
  lifelines : Lifelines
  isFrozen : Bool
  xp : Int
  level : Nat
  correctCount : Nat
  wrongCount : Nat
  xpGained : Int
  accuracyPercent : Int
  hiddenAnswers : List String
  nextBtnDisabled : Bool
  cardsActive : Bool
  pendingAnim : Bool
  pendingUnfreeze : Bool
  quizScreen : Bool
  currentQuestionIndex : Option Nat
deriving Repr, DecidableEq

/-- The streak multiplier `1 + (Math.floor(STATE.streak / 3) * 0.1)`
(line 743). -/
def streakMult (streak : Nat) : ℚ := 1 + (streak / 3 : Nat) * (1 / 10)

/-- JavaScript `String.prototype.toLowerCase()`: lower-cases each character.
(`String.toLower` itself is compiled through a partial helper, so this
embedding maps over the character list instead.) -/
def jsToLower (s : String) : String := ⟨s.data.map Char.toLower⟩

/-- The per-question duration chosen by `renderQuestion` from
`STATE.config.difficulty.toLowerCase()` (lines 690-699). -/
def questionDuration (difficulty : String) : Int :=
  let d := jsToLower difficulty
  if d = "easy" then TIMER_EASY
  else if d = "medium" then TIMER_MEDIUM
  else if d = "hard" then TIMER_HARD
  else TIMER_BASE

/-- Function `renderQuestion` (lines 666-706): rebuilds the option cards for
`STATE.questions[STATE.currIndex]` (all visible, all clickable), sets
`timeLeft` from the difficulty, clears `isFrozen`, and calls
`startTimer` (which cancels any previous interval and starts a fresh
one).  The source reads `STATE.questions[STATE.currIndex]` without a
bound check; the UI only invokes it with a valid index, and on an
out-of-range index the embedding leaves the state unchanged. -/
def renderQuestion (s : GameState) : GameState :=
  match s.questions.get? s.currIndex with
  | none => s
  | some _ =>
    { s with
      cardsActive := true
      hiddenAnswers := []
      timeLeft := questionDuration s.difficulty
      isFrozen := false
      timerRunning := true }

/-- Function `addXP` (lines 769-785): adds to `STATE.xp` and raises `STATE.level`
to `Math.floor(xp / 100) + 1` when that exceeds the current level. -/
def addXP (amount : Int) (s : GameState) : GameState :=
  let s := { s with xp := s.xp + amount }
  let nextLevel := ((s.xp.fdiv 100) + 1).toNat
  if nextLevel > s.level then { s with level := nextLevel } else s

/-- Function `handleAnswer` (lines 727-767).  Returns early when
`ui.nextBtn.disabled === false`; otherwise cancels the timer, records
`userSelected`, and on a correct answer adds
`Math.round((POINTS_PER_Q + max(0, timeLeft)) * streakMult)` to the
score, increments the streak and `correctCount`, and calls `addXP`;
on a wrong answer zeroes the streak and increments `wrongCount`.
The 800 ms `setTimeout` that will disable the cards and enable the next
button is recorded as `pendingAnim`. -/
def handleAnswer (selected : String) (s : GameState) : GameState :=
  if s.nextBtnDisabled = false then s
  else
    let s := { s with timerRunning := false }
    match s.questions.get? s.currIndex with
    | none => s
    | some q =>
      let s := { s with
        questions := s.questions.set s.currIndex { q with userSelected := some (some selected) } }
      let s :=
        if selected = q.correct_answer then
          let timeBonus : Int := max 0 s.timeLeft
          let points : Int := round (((POINTS_PER_Q : ℚ) + (timeBonus : Int)) * streakMult s.streak)
          addXP points
            { s with
              score := s.score + points
              streak := s.streak + 1
              correctCount := s.correctCount + 1 }
        else
          { s with streak := 0, wrongCount := s.wrongCount + 1 }
      { s with pendingAnim := true }

/-- The 800 ms `setTimeout` callback inside `handleAnswer`
(lines 762-766): removes the cards' `onclick` handlers and enables the
next button.  A step on a state with no pending callback is a no-op. -/
def animFire (s : GameState) : GameState :=
  if s.pendingAnim then
    { s with pendingAnim := false, cardsActive := false, nextBtnDisabled := false }
  else s

/-- Function `handleTimeOut` (lines 797-812): records `userSelected = null`,
removes the cards' `onclick` handlers, zeroes the streak, and enables the
next button.  Neither counter is touched and the score is unchanged. -/
def handleTimeOut (s : GameState) : GameState :=
  let qs :=
    match s.questions.get? s.currIndex with
    | some q => s.questions.set s.currIndex { q with userSelected := some none }
    | none => s.questions
  { s with questions := qs, cardsActive := false, streak := 0, nextBtnDisabled := false }

/-- One firing of the `startTimer` interval callback (lines 712-724):
when frozen it does nothing; otherwise it decrements `timeLeft` and, at
`timeLeft <= 0`, cancels the interval and runs `handleTimeOut`. -/
def tick (s : GameState) : GameState :=
  if s.timerRunning = false then s
  else if s.isFrozen then s
  else
    let s := { s with timeLeft := s.timeLeft - 1 }
    if s.timeLeft ≤ 0 then handleTimeOut { s with timerRunning := false } else s

/-- Function `endGame` (lines 881-932): hides the quiz screen, sets
`STATE.xpGained = STATE.score`, and computes the displayed accuracy
`totalAnswered > 0 ? Math.round((correctCount / totalAnswered) * 100) : 0`. -/
def endGame (s : GameState) : GameState :=
  let s := { s with quizScreen := false, xpGained := s.score }
  let totalAnswered : Nat := s.correctCount + s.wrongCount
  let accuracy : Int :=
    if totalAnswered > 0 then
      round (((s.correctCount : ℚ) / (totalAnswered : Nat)) * 100)
    else 0
  { s with accuracyPercent := accuracy }

/-- Function `nextQuestion` (lines 814-824): advances the index, disables the next
button, and either renders the next question or ends the game. -/
def nextQuestion (s : GameState) : GameState :=
  let s := { s with currIndex := s.currIndex + 1, nextBtnDisabled := true }
  if s.currIndex < s.questions.length then renderQuestion s else endGame s

/-- Function `use5050` (lines 828-841): when the lifeline is available, hides the
first two option cards whose text differs from the correct answer and
consumes the lifeline.  The source reads the current question without a
bound check; out of range the embedding leaves the state unchanged. -/
def use5050 (s : GameState) : GameState :=
  if s.lifelines.fifty = false then s
  else
    match s.questions.get? s.currIndex with
    | none => s
    | some q =>
      let wrongCards := q.answers.filter (fun c => c ≠ q.correct_answer)
      { s with
        hiddenAnswers := wrongCards.take 2
        lifelines := { s.lifelines with fifty := false } }

/-- Function `useFreeze` (lines 843-851): when available, freezes the clock,
consumes the lifeline, and schedules the 10 s unfreeze `setTimeout`
(recorded as `pendingUnfreeze`). -/
def useFreeze (s : GameState) : GameState :=
  if s.lifelines.freeze = false then s
  else
    { s with
      isFrozen := true
      lifelines := { s.lifelines with freeze := false }
      pendingUnfreeze := true }

/-- The 10 s `setTimeout` callback inside `useFreeze` (line 850): sets
`STATE.isFrozen = false`.  A step on a state with no scheduled callback
is a no-op. -/
def unfreezeFire (s : GameState) : GameState :=
  if s.pendingUnfreeze then { s with isFrozen := false, pendingUnfreeze := false } else s

/-- Function `useSkip` (lines 853-862): when available, consumes the lifeline,
adds `POINTS_PER_Q` to the score, cancels the timer, and calls
`nextQuestion`.  No `addXP` call and no streak change. -/
def useSkip (s : GameState) : GameState :=
  if s.lifelines.skip = false then s
  else
    let s := { s with lifelines := { s.lifelines with skip := false } }
    let s := { s with score := s.score + POINTS_PER_Q, timerRunning := false }
    nextQuestion s

/-- Function `startGame` (lines 604-624): resets the per-session fields (index,
score, streak, counters, lifelines, frozen flag — `xp`, `level` and
`xpGained` are kept), shows the quiz screen, and renders question 0. -/
def startGame (s : GameState) : GameState :=
  let s := { s with
    currIndex := 0
    score := 0
    streak := 0
    correctCount := 0
    wrongCount := 0
    lifelines := { fifty := true, freeze := true, skip := true }
    isFrozen := false
    quizScreen := true }
  renderQuestion s

/-- Function `stateReset` (lines 1195-1199): zeroes the score, assigns `0` to the
property `STATE.currentQuestionIndex` (not the `currIndex` field the
session logic uses), and empties the question list. -/
def stateReset (s : GameState) : GameState :=
  { s with score := 0, currentQuestionIndex := some 0, questions := [] }

/-- Function `goHome` (lines 1159-1172): `stateReset` plus screen switching (the
quiz screen is hidden). -/
def goHome (s : GameState) : GameState :=
  let s := stateReset s
  { s with quizScreen := false }

/-- The `STATE` literal (lines 25-42): a fresh page load holding the
fetched question list.  The next button starts disabled in the page
markup. -/
def initState (qs : List Question) : GameState :=
  { questions := qs
    currIndex := 0
    score := 0
    streak := 0
    timerRunning := false
    timeLeft := TIMER_BASE
    difficulty := ""
    lifelines := { fifty := true, freeze := true, skip := true }
    isFrozen := false
    xp := 0
    level := 1
    correctCount := 0
    wrongCount := 0
    xpGained := 0
    accuracyPercent := 0
    hiddenAnswers := []
    nextBtnDisabled := true
    cardsActive := false
    pendingAnim := false
    pendingUnfreeze := false
    quizScreen := false
    currentQuestionIndex := none }

/-- The asynchronous event sources that can call into the session while
it runs: an option-card click (only when the quiz screen is up and the
cards still have handlers), the 800 ms animation callback, a timer tick,
a next-button click (ignored while the button is disabled), the three
lifeline buttons (alive only on the quiz screen), and the 10 s unfreeze
callback. -/
inductive Ev where
  | submit (a : String)
  | anim
  | tick
  | next
  | fifty
  | freeze
  | skip
  | unfreeze
deriving Repr, DecidableEq

/-- Dispatch of one event to the handlers, with the DOM guards under
which each handler can fire at all. -/
def stepEv (e : Ev) (s : GameState) : GameState :=
  match e with
  | .submit a => if s.quizScreen ∧ s.cardsActive then handleAnswer a s else s
  | .anim => animFire s
  | .tick => tick s
  | .next => if s.quizScreen ∧ s.nextBtnDisabled = false then nextQuestion s else s
  | .fifty => if s.quizScreen then use5050 s else s
  | .freeze => if s.quizScreen then useFreeze s else s
  | .skip => if s.quizScreen then useSkip s else s
  | .unfreeze => unfreezeFire s

/-- Run a list of events from a state. -/
def runEvs (s : GameState) (evs : List Ev) : GameState :=
  evs.foldl (fun s e => stepEv e s) s

/-- States a session over the question list `qs` can reach from
`startGame` under any interleaving of the event sources. -/
def Reachable (qs : List Question) (s : GameState) : Prop :=
  ∃ evs : List Ev, s = runEvs (startGame (initState qs)) evs

/-- One user-level move in the normal flow: resolve the current question
by clicking an answer (click, animation callback, next click), let the
clock run out (timeout then next click), or press a lifeline button. -/
inductive Move where
  | answer (a : String)
  | timeout
  | fifty
  | freeze
  | skip
deriving Repr, DecidableEq

/-- The normal-flow driver: each `Move.answer` is the full
click/animation/next sequence, `Move.timeout` is the clock expiring
(interval cancelled, `handleTimeOut`, next click) when a timer is
running, and the lifeline moves are single events. -/
def playMove (s : GameState) (m : Move) : GameState :=
  match m with
  | .answer a => stepEv .next (stepEv .anim (stepEv (.submit a) s))
  | .timeout =>
    stepEv .next
      (if s.timerRunning then handleTimeOut { s with timerRunning := false, timeLeft := 0 } else s)
  | .fifty => stepEv .fifty s
  | .freeze => stepEv .freeze s
  | .skip => stepEv .skip s

/-- A whole session in the normal flow: `startGame` on the fetched
question list, then the user's moves. -/
def playSession (qs : List Question) (ms : List Move) : GameState :=
  ms.foldl playMove (startGame (initState qs))

/-- A concrete four-answer question used for witnesses. -/
def sampleQ : Question :=
  { question := "Q1"
    correct_answer := "A"
    incorrect_answers := ["B", "C", "D"]
    answers := ["A", "B", "C", "D"]
    userSelected := none }

/-- A second concrete question (correct answer last in the shuffled
order) used for witnesses. -/
def sampleQ2 : Question :=
  { question := "Q2"
    correct_answer := "Z"
    incorrect_answers := ["X", "Y", "W"]
    answers := ["X", "Y", "W", "Z"]
    userSelected := none }

/-! ### Equation and frame lemmas for the handlers -/

theorem addXP_frame (p : Int) (s : GameState) :
    (addXP p s).xp = s.xp + p ∧ (addXP p s).score = s.score ∧
    (addXP p s).streak = s.streak ∧ (addXP p s).currIndex = s.currIndex ∧
    (addXP p s).correctCount = s.correctCount ∧ (addXP p s).wrongCount = s.wrongCount ∧
    (addXP p s).questions = s.questions ∧ (addXP p s).lifelines = s.lifelines ∧
    (addXP p s).nextBtnDisabled = s.nextBtnDisabled ∧ (addXP p s).pendingAnim = s.pendingAnim ∧
    (addXP p s).cardsActive = s.cardsActive ∧ (addXP p s).quizScreen = s.quizScreen ∧
    (addXP p s).isFrozen = s.isFrozen ∧ (addXP p s).pendingUnfreeze = s.pendingUnfreeze ∧
    (addXP p s).timerRunning = s.timerRunning ∧ (addXP p s).timeLeft = s.timeLeft ∧
    (addXP p s).xpGained = s.xpGained := by
  unfold addXP
  by_cases h : ((s.xp + p).fdiv 100 + 1).toNat > s.level <;> simp [h]

theorem handleAnswer_not_disabled (a : String) (s : GameState)
    (h : s.nextBtnDisabled = false) : handleAnswer a s = s := by
  unfold handleAnswer
  simp [h]

theorem handleAnswer_no_question (a : String) (s : GameState)
    (hb : s.nextBtnDisabled = true) (hq : s.questions[s.currIndex]? = none) :
    handleAnswer a s = { s with timerRunning := false } := by
  unfold handleAnswer
  simp [hb, hq]

theorem handleAnswer_correct_eq (a : String) (s : GameState) (q : Question)
    (hb : s.nextBtnDisabled = true) (hq : s.questions[s.currIndex]? = some q)
    (hc : a = q.correct_answer) :
    handleAnswer a s =
      { addXP (round (((POINTS_PER_Q : ℚ) + (max 0 s.timeLeft : Int)) * streakMult s.streak))
          { s with
            questions := s.questions.set s.currIndex { q with userSelected := some (some a) }
            timerRunning := false
            score := s.score + round (((POINTS_PER_Q : ℚ) + (max 0 s.timeLeft : Int)) * streakMult s.streak)
            streak := s.streak + 1
            correctCount := s.correctCount + 1 } with
        pendingAnim := true } := by
  unfold handleAnswer
  simp [hb, hq, hc]

theorem handleAnswer_wrong_eq (a : String) (s : GameState) (q : Question)
    (hb : s.nextBtnDisabled = true) (hq : s.questions[s.currIndex]? = some q)
    (hc : a ≠ q.correct_answer) :
    handleAnswer a s =
      { s with
        questions := s.questions.set s.currIndex { q with userSelected := some (some a) }
        timerRunning := false
        streak := 0
        wrongCount := s.wrongCount + 1
        pendingAnim := true } := by
  unfold handleAnswer
  simp [hb, hq, hc]

theorem renderQuestion_frame (s : GameState) :
    (renderQuestion s).currIndex = s.currIndex ∧ (renderQuestion s).score = s.score ∧
    (renderQuestion s).streak = s.streak ∧ (renderQuestion s).correctCount = s.correctCount ∧
    (renderQuestion s).wrongCount = s.wrongCount ∧ (renderQuestion s).xp = s.xp ∧
    (renderQuestion s).xpGained = s.xpGained ∧ (renderQuestion s).questions = s.questions ∧
    (renderQuestion s).lifelines = s.lifelines ∧
    (renderQuestion s).nextBtnDisabled = s.nextBtnDisabled ∧
    (renderQuestion s).pendingAnim = s.pendingAnim ∧
    (renderQuestion s).pendingUnfreeze = s.pendingUnfreeze ∧
    (renderQuestion s).quizScreen = s.quizScreen ∧ (renderQuestion s).level = s.level := by
  unfold renderQuestion
  cases hq : s.questions.get? s.currIndex <;> simp

theorem renderQuestion_isFrozen (s : GameState) :
    (renderQuestion s).isFrozen = false ∨ renderQuestion s = s := by
  unfold renderQuestion
  cases hq : s.questions.get? s.currIndex <;> simp

theorem endGame_frame (s : GameState) :
    (endGame s).currIndex = s.currIndex ∧ (endGame s).score = s.score ∧
    (endGame s).streak = s.streak ∧ (endGame s).correctCount = s.correctCount ∧
    (endGame s).wrongCount = s.wrongCount ∧ (endGame s).xp = s.xp ∧
    (endGame s).questions = s.questions ∧ (endGame s).lifelines = s.lifelines ∧
    (endGame s).nextBtnDisabled = s.nextBtnDisabled ∧
    (endGame s).pendingAnim = s.pendingAnim ∧
    (endGame s).pendingUnfreeze = s.pendingUnfreeze ∧
    (endGame s).isFrozen = s.isFrozen ∧ (endGame s).cardsActive = s.cardsActive ∧
    (endGame s).timerRunning = s.timerRunning ∧
    (endGame s).xpGained = s.score ∧ (endGame s).quizScreen = false := by
  unfold endGame
  simp

theorem nextQuestion_facts (s : GameState) :
    (nextQuestion s).currIndex = s.currIndex + 1 ∧
    (nextQuestion s).nextBtnDisabled = true ∧
    (nextQuestion s).score = s.score ∧ (nextQuestion s).streak = s.streak ∧
    (nextQuestion s).correctCount = s.correctCount ∧
    (nextQuestion s).wrongCount = s.wrongCount ∧ (nextQuestion s).xp = s.xp ∧
    (nextQuestion s).questions = s.questions ∧ (nextQuestion s).lifelines = s.lifelines ∧
    (nextQuestion s).pendingAnim = s.pendingAnim ∧
    (nextQuestion s).pendingUnfreeze = s.pendingUnfreeze := by
  unfold nextQuestion
  by_cases h : s.currIndex + 1 < s.questions.length
  · have hf := renderQuestion_frame { s with currIndex := s.currIndex + 1, nextBtnDisabled := true }
    simp only at hf
    simp only [h]
    simp [hf]
  · have hf := endGame_frame { s with currIndex := s.currIndex + 1, nextBtnDisabled := true }
    simp only at hf
    simp only [h]
    simp [hf]

theorem handleTimeOut_facts (s : GameState) :
    (handleTimeOut s).score = s.score ∧ (handleTimeOut s).streak = 0 ∧
    (handleTimeOut s).correctCount = s.correctCount ∧
    (handleTimeOut s).wrongCount = s.wrongCount ∧ (handleTimeOut s).xp = s.xp ∧
    (handleTimeOut s).currIndex = s.currIndex ∧ (handleTimeOut s).lifelines = s.lifelines ∧
    (handleTimeOut s).nextBtnDisabled = false ∧ (handleTimeOut s).cardsActive = false ∧
    (handleTimeOut s).pendingAnim = s.pendingAnim ∧
    (handleTimeOut s).pendingUnfreeze = s.pendingUnfreeze ∧
    (handleTimeOut s).isFrozen = s.isFrozen ∧
    (handleTimeOut s).quizScreen = s.quizScreen ∧
    (handleTimeOut s).questions.length = s.questions.length ∧
    (handleTimeOut s).xpGained = s.xpGained := by
  unfold handleTimeOut
  cases hq : s.questions.get? s.currIndex <;> simp

theorem animFire_spent (s : GameState) (h : s.pendingAnim = false) : animFire s = s := by
  unfold animFire
  simp [h]

theorem animFire_pending_eq (s : GameState) (h : s.pendingAnim = true) :
    animFire s = { s with pendingAnim := false, cardsActive := false, nextBtnDisabled := false } := by
  unfold animFire
  simp [h]

theorem use5050_frame (s : GameState) :
    (use5050 s).score = s.score ∧ (use5050 s).streak = s.streak ∧
    (use5050 s).correctCount = s.correctCount ∧ (use5050 s).wrongCount = s.wrongCount ∧
    (use5050 s).currIndex = s.currIndex ∧ (use5050 s).xp = s.xp ∧
    (use5050 s).questions = s.questions ∧ (use5050 s).lifelines.skip = s.lifelines.skip ∧
    (use5050 s).lifelines.freeze = s.lifelines.freeze ∧
    (use5050 s).nextBtnDisabled = s.nextBtnDisabled ∧
    (use5050 s).pendingAnim = s.pendingAnim ∧
    (use5050 s).pendingUnfreeze = s.pendingUnfreeze ∧
    (use5050 s).isFrozen = s.isFrozen ∧ (use5050 s).quizScreen = s.quizScreen ∧
    (use5050 s).cardsActive = s.cardsActive ∧ (use5050 s).timerRunning = s.timerRunning ∧
    (use5050 s).xpGained = s.xpGained := by
  unfold use5050
  split
  · simp
  · cases hq : s.questions.get? s.currIndex <;> simp

theorem use5050_avail_eq (s : GameState) (q : Question)
    (hl : s.lifelines.fifty = true) (hq : s.questions[s.currIndex]? = some q) :
    use5050 s =
      { s with
        hiddenAnswers := (q.answers.filter (fun c => c ≠ q.correct_answer)).take 2
        lifelines := { s.lifelines with fifty := false } } := by
  unfold use5050
  simp [hl, hq]

theorem useFreeze_frame (s : GameState) :
    (useFreeze s).score = s.score ∧ (useFreeze s).streak = s.streak ∧
    (useFreeze s).correctCount = s.correctCount ∧ (useFreeze s).wrongCount = s.wrongCount ∧
    (useFreeze s).currIndex = s.currIndex ∧ (useFreeze s).xp = s.xp ∧
    (useFreeze s).questions = s.questions ∧ (useFreeze s).lifelines.skip = s.lifelines.skip ∧
    (useFreeze s).nextBtnDisabled = s.nextBtnDisabled ∧
    (useFreeze s).pendingAnim = s.pendingAnim ∧
    (useFreeze s).quizScreen = s.quizScreen ∧ (useFreeze s).cardsActive = s.cardsActive ∧
    (useFreeze s).timerRunning = s.timerRunning ∧ (useFreeze s).xpGained = s.xpGained := by
  unfold useFreeze
  split <;> simp

theorem unfreezeFire_frame (s : GameState) :
    (unfreezeFire s).score = s.score ∧ (unfreezeFire s).streak = s.streak ∧
    (unfreezeFire s).correctCount = s.correctCount ∧
    (unfreezeFire s).wrongCount = s.wrongCount ∧
    (unfreezeFire s).currIndex = s.currIndex ∧ (unfreezeFire s).xp = s.xp ∧
    (unfreezeFire s).questions = s.questions ∧ (unfreezeFire s).lifelines = s.lifelines ∧
    (unfreezeFire s).nextBtnDisabled = s.nextBtnDisabled ∧
    (unfreezeFire s).pendingAnim = s.pendingAnim ∧
    (unfreezeFire s).quizScreen = s.quizScreen ∧
    (unfreezeFire s).cardsActive = s.cardsActive ∧
    (unfreezeFire s).timerRunning = s.timerRunning ∧
    (unfreezeFire s).timeLeft = s.timeLeft ∧ (unfreezeFire s).xpGained = s.xpGained := by
  unfold unfreezeFire
  split <;> simp

theorem useSkip_spent (s : GameState) (h : s.lifelines.skip = false) : useSkip s = s := by
  unfold useSkip
  simp [h]

theorem useSkip_avail_eq (s : GameState) (h : s.lifelines.skip = true) :
    useSkip s =
      nextQuestion
        { s with
          lifelines := { s.lifelines with skip := false }
          score := s.score + POINTS_PER_Q
          timerRunning := false } := by
  unfold useSkip
  simp [h]

theorem tick_frame (s : GameState) :
    (tick s).score = s.score ∧ (tick s).correctCount = s.correctCount ∧
    (tick s).wrongCount = s.wrongCount ∧ (tick s).currIndex = s.currIndex ∧
    (tick s).xp = s.xp ∧ (tick s).lifelines = s.lifelines ∧
    (tick s).pendingAnim = s.pendingAnim ∧ (tick s).pendingUnfreeze = s.pendingUnfreeze ∧
    (tick s).isFrozen = s.isFrozen ∧ (tick s).quizScreen = s.quizScreen ∧
    (tick s).questions.length = s.questions.length ∧ (tick s).xpGained = s.xpGained := by
  unfold tick
  by_cases h1 : s.timerRunning = false
  · simp [h1]
  · by_cases h2 : s.isFrozen = true
    · simp [h1, h2]
    · by_cases h3 : s.timeLeft - 1 ≤ 0
      · have h := handleTimeOut_facts { s with timeLeft := s.timeLeft - 1, timerRunning := false }
        simp only at h
        simp only [h1, h2, h3]
        tauto
      · simp [h1, h2, h3]

theorem handleAnswer_correct_fields (a : String) (s : GameState) (q : Question)
    (hb : s.nextBtnDisabled = true) (hq : s.questions[s.currIndex]? = some q)
    (hc : a = q.correct_answer) :
    (handleAnswer a s).score =
      s.score + round (((POINTS_PER_Q : ℚ) + (max 0 s.timeLeft : Int)) * streakMult s.streak) ∧
    (handleAnswer a s).streak = s.streak + 1 ∧
    (handleAnswer a s).correctCount = s.correctCount + 1 ∧
    (handleAnswer a s).wrongCount = s.wrongCount ∧
    (handleAnswer a s).cardsActive = s.cardsActive ∧
    (handleAnswer a s).quizScreen = s.quizScreen ∧
    (handleAnswer a s).nextBtnDisabled = s.nextBtnDisabled ∧
    (handleAnswer a s).pendingAnim = true ∧
    (handleAnswer a s).timeLeft = s.timeLeft ∧
    (handleAnswer a s).xp =
      s.xp + round (((POINTS_PER_Q : ℚ) + (max 0 s.timeLeft : Int)) * streakMult s.streak) ∧
    (handleAnswer a s).questions =
      s.questions.set s.currIndex { q with userSelected := some (some a) } ∧
    (handleAnswer a s).currIndex = s.currIndex ∧
    (handleAnswer a s).isFrozen = s.isFrozen ∧
    (handleAnswer a s).pendingUnfreeze = s.pendingUnfreeze ∧
    (handleAnswer a s).lifelines = s.lifelines := by
  rw [handleAnswer_correct_eq a s q hb hq hc]
  have hf := addXP_frame
    (round (((POINTS_PER_Q : ℚ) + (max 0 s.timeLeft : Int)) * streakMult s.streak))
    { s with
      questions := s.questions.set s.currIndex { q with userSelected := some (some a) }
      timerRunning := false
      score := s.score +
        round (((POINTS_PER_Q : ℚ) + (max 0 s.timeLeft : Int)) * streakMult s.streak)
      streak := s.streak + 1
      correctCount := s.correctCount + 1 }
  simp only at hf ⊢
  tauto

theorem animFire_frame (s : GameState) :
    (animFire s).score = s.score ∧ (animFire s).streak = s.streak ∧
    (animFire s).correctCount = s.correctCount ∧ (animFire s).wrongCount = s.wrongCount ∧
    (animFire s).currIndex = s.currIndex ∧ (animFire s).xp = s.xp ∧
    (animFire s).questions = s.questions ∧ (animFire s).lifelines = s.lifelines ∧
    (animFire s).isFrozen = s.isFrozen ∧ (animFire s).pendingUnfreeze = s.pendingUnfreeze ∧
    (animFire s).quizScreen = s.quizScreen ∧ (animFire s).timerRunning = s.timerRunning ∧
    (animFire s).timeLeft = s.timeLeft ∧ (animFire s).xpGained = s.xpGained := by
  unfold animFire
  split <;> simp

theorem handleAnswer_xp_score (a : String) (s : GameState) :
    ∃ p : Int,
      (handleAnswer a s).score = s.score + p ∧ (handleAnswer a s).xp = s.xp + p ∧
      (handleAnswer a s).lifelines = s.lifelines := by
  by_cases hb : s.nextBtnDisabled = false
  · exact ⟨0, by rw [handleAnswer_not_disabled a s hb]; omega,
      by rw [handleAnswer_not_disabled a s hb]; omega,
      by rw [handleAnswer_not_disabled a s hb]⟩
  · have hb' : s.nextBtnDisabled = true := by simpa using hb
    cases hq : s.questions[s.currIndex]? with
    | none =>
      exact ⟨0, by rw [handleAnswer_no_question a s hb' hq]; simp,
        by rw [handleAnswer_no_question a s hb' hq]; simp,
        by rw [handleAnswer_no_question a s hb' hq]⟩
    | some q =>
      by_cases hc : a = q.correct_answer
      · obtain ⟨h1, _, _, _, _, _, _, _, _, h10, _, _, _, _, h15⟩ :=
          handleAnswer_correct_fields a s q hb' hq hc
        exact ⟨_, h1, h10, h15⟩
      · exact ⟨0, by rw [handleAnswer_wrong_eq a s q hb' hq hc]; simp,
          by rw [handleAnswer_wrong_eq a s q hb' hq hc]; simp,
          by rw [handleAnswer_wrong_eq a s q hb' hq hc]⟩

theorem handleAnswer_freeze_frame (a : String) (s : GameState) :
    (handleAnswer a s).isFrozen = s.isFrozen ∧
    (handleAnswer a s).pendingUnfreeze = s.pendingUnfreeze := by
  by_cases hb : s.nextBtnDisabled = false
  · rw [handleAnswer_not_disabled a s hb]; exact ⟨rfl, rfl⟩
  · have hb' : s.nextBtnDisabled = true := by simpa using hb
    cases hq : s.questions[s.currIndex]? with
    | none => rw [handleAnswer_no_question a s hb' hq]; exact ⟨rfl, rfl⟩
    | some q =>
      by_cases hc : a = q.correct_answer
      · obtain ⟨_, _, _, _, _, _, _, _, _, _, _, _, h13, h14, _⟩ :=
          handleAnswer_correct_fields a s q hb' hq hc
        exact ⟨h13, h14⟩
      · rw [handleAnswer_wrong_eq a s q hb' hq hc]; exact ⟨rfl, rfl⟩

theorem nextQuestion_isFrozen_mono (s : GameState) :
    (nextQuestion s).isFrozen = true → s.isFrozen = true := by
  unfold nextQuestion
  by_cases hlen : s.currIndex + 1 < s.questions.length
  · simp only [hlen]
    rcases renderQuestion_isFrozen
        { s with currIndex := s.currIndex + 1, nextBtnDisabled := true } with hr | hr
    · simp [hr]
    · rw [hr]
      exact fun h => h
  · simp only [hlen, ite_false]
    rw [(endGame_frame { s with currIndex := s.currIndex + 1, nextBtnDisabled := true }).2.2.2.2.2.2.2.2.2.2.2.1]
    exact fun h => h

theorem nextQuestion_renders_unfrozen (s : GameState)
    (h : s.currIndex + 1 < s.questions.length) : (nextQuestion s).isFrozen = false := by
  unfold nextQuestion
  simp only [h]
  obtain ⟨q, hq⟩ : ∃ q, s.questions[s.currIndex + 1]? = some q :=
    ⟨_, List.getElem?_eq_getElem h⟩
  unfold renderQuestion
  simp [hq]

theorem stepEv_freezeInv (e : Ev) (s : GameState)
    (h : s.isFrozen = true → s.pendingUnfreeze = true) :
    (stepEv e s).isFrozen = true → (stepEv e s).pendingUnfreeze = true := by
  cases e with
  | submit a =>
    simp only [stepEv]
    split
    · have hf := handleAnswer_freeze_frame a s
      rw [hf.1, hf.2]; exact h
    · exact h
  | anim =>
    show (animFire s).isFrozen = true → (animFire s).pendingUnfreeze = true
    have hf := animFire_frame s
    rw [hf.2.2.2.2.2.2.2.2.1, hf.2.2.2.2.2.2.2.2.2.1]
    exact h
  | tick =>
    show (tick s).isFrozen = true → (tick s).pendingUnfreeze = true
    have hf := tick_frame s
    rw [hf.2.2.2.2.2.2.2.2.1, hf.2.2.2.2.2.2.2.1]
    exact h
  | next =>
    simp only [stepEv]
    split
    · intro hfz
      rw [(nextQuestion_facts s).2.2.2.2.2.2.2.2.2.2]
      exact h (nextQuestion_isFrozen_mono s hfz)
    · exact h
  | fifty =>
    simp only [stepEv]
    split
    · have hf := use5050_frame s
      rw [hf.2.2.2.2.2.2.2.2.2.2.2.2.1, hf.2.2.2.2.2.2.2.2.2.2.2.1]
      exact h
    · exact h
  | freeze =>
    simp only [stepEv]
    split
    · unfold useFreeze
      split
      · exact h
      · simp
    · exact h
  | skip =>
    simp only [stepEv]
    split
    · by_cases hsk : s.lifelines.skip = false
      · rw [useSkip_spent s hsk]; exact h
      · have hsk' : s.lifelines.skip = true := by simpa using hsk
        rw [useSkip_avail_eq s hsk']
        intro hfz
        rw [(nextQuestion_facts _).2.2.2.2.2.2.2.2.2.2]
        have := nextQuestion_isFrozen_mono _ hfz
        simp only at this ⊢
        exact h this
    · exact h
  | unfreeze =>
    show (unfreezeFire s).isFrozen = true → (unfreezeFire s).pendingUnfreeze = true
    unfold unfreezeFire
    split
    · simp
    · exact h

theorem reachable_freezeInv (qs : List Question) (s : GameState) (h : Reachable qs s) :
    s.isFrozen = true → s.pendingUnfreeze = true := by
  obtain ⟨evs, rfl⟩ := h
  have hstart : (startGame (initState qs)).isFrozen = true →
      (startGame (initState qs)).pendingUnfreeze = true := by
    unfold startGame
    rcases renderQuestion_isFrozen
        { initState qs with
          currIndex := 0, score := 0, streak := 0, correctCount := 0, wrongCount := 0
          lifelines := { fifty := true, freeze := true, skip := true }
          isFrozen := false, quizScreen := true } with hr | hr
    · simp [hr]
    · rw [hr]; simp [initState]
  generalize startGame (initState qs) = s0 at hstart
  induction evs generalizing s0 with
  | nil => exact hstart
  | cons e evs ih => exact ih (stepEv e s0) (stepEv_freezeInv e s0 hstart)

theorem stepEv_anim_eq (s : GameState) : stepEv Ev.anim s = animFire s := rfl

theorem playMove_normInv (s : GameState) (m : Move)
    (hm1 : m ≠ Move.timeout) (hm2 : m ≠ Move.skip)
    (hsum : s.correctCount + s.wrongCount = s.currIndex)
    (hanim : s.pendingAnim = false) (hbtn : s.nextBtnDisabled = true) :
    (playMove s m).correctCount + (playMove s m).wrongCount = (playMove s m).currIndex ∧
    (playMove s m).pendingAnim = false ∧ (playMove s m).nextBtnDisabled = true := by
  cases m with
  | timeout => exact absurd rfl hm1
  | skip => exact absurd rfl hm2
  | fifty =>
    simp only [playMove, stepEv]
    split
    · have hf := use5050_frame s
      exact ⟨by rw [hf.2.2.1, hf.2.2.2.1, hf.2.2.2.2.1]; exact hsum,
        by rw [hf.2.2.2.2.2.2.2.2.2.2.1]; exact hanim,
        by rw [hf.2.2.2.2.2.2.2.2.2.1]; exact hbtn⟩
    · exact ⟨hsum, hanim, hbtn⟩
  | freeze =>
    simp only [playMove, stepEv]
    split
    · have hf := useFreeze_frame s
      exact ⟨by rw [hf.2.2.1, hf.2.2.2.1, hf.2.2.2.2.1]; exact hsum,
        by rw [hf.2.2.2.2.2.2.2.2.2.1]; exact hanim,
        by rw [hf.2.2.2.2.2.2.2.2.1]; exact hbtn⟩
    · exact ⟨hsum, hanim, hbtn⟩
  | answer a =>
    simp only [playMove]
    by_cases hg : s.quizScreen = true ∧ s.cardsActive = true
    · have hsub : stepEv (.submit a) s = handleAnswer a s := by
        simp [stepEv, hg.1, hg.2]
      cases hq : s.questions[s.currIndex]? with
      | none =>
        have h1 : handleAnswer a s = { s with timerRunning := false } :=
          handleAnswer_no_question a s hbtn hq
        have h2 : stepEv Ev.anim { s with timerRunning := false } =
            { s with timerRunning := false } := animFire_spent _ hanim
        have h3 : stepEv Ev.next { s with timerRunning := false } =
            { s with timerRunning := false } := by
          simp [stepEv, hbtn]
        rw [hsub, h1, h2, h3]
        exact ⟨hsum, hanim, hbtn⟩
      | some q =>
        have Hfacts : (handleAnswer a s).correctCount + (handleAnswer a s).wrongCount
              = s.correctCount + s.wrongCount + 1 ∧
            (handleAnswer a s).pendingAnim = true ∧
            (handleAnswer a s).quizScreen = s.quizScreen ∧
            (handleAnswer a s).currIndex = s.currIndex := by
          by_cases hc : a = q.correct_answer
          · obtain ⟨_, _, Fcc, Fwc, _, Fquiz, _, Fanim, _, _, _, Fidx, _, _, _⟩ :=
              handleAnswer_correct_fields a s q hbtn hq hc
            exact ⟨by rw [Fcc, Fwc]; omega, Fanim, Fquiz, Fidx⟩
          · have h1 := handleAnswer_wrong_eq a s q hbtn hq hc
            refine ⟨?_, by rw [h1], by rw [h1], by rw [h1]⟩
            rw [h1]
            show s.correctCount + (s.wrongCount + 1) = s.correctCount + s.wrongCount + 1
            omega
        obtain ⟨Fsum, Fanim, Fquiz, Fidx⟩ := Hfacts
        have h2 := animFire_pending_eq (handleAnswer a s) Fanim
        have h3 : stepEv Ev.next
            ({ handleAnswer a s with
                pendingAnim := false, cardsActive := false, nextBtnDisabled := false }) =
            nextQuestion
              { handleAnswer a s with
                pendingAnim := false, cardsActive := false, nextBtnDisabled := false } := by
          simp [stepEv, show (handleAnswer a s).quizScreen = true from by rw [Fquiz]; exact hg.1]
        have hn := nextQuestion_facts
          { handleAnswer a s with
            pendingAnim := false, cardsActive := false, nextBtnDisabled := false }
        simp only at hn
        rw [hsub, stepEv_anim_eq, h2, h3]
        refine ⟨?_, ?_, ?_⟩
        · rw [hn.1, hn.2.2.2.2.1, hn.2.2.2.2.2.1]
          omega
        · rw [hn.2.2.2.2.2.2.2.2.2.1]
        · rw [hn.2.1]
    · have hsub : stepEv (.submit a) s = s := by
        simp only [stepEv]
        rw [if_neg]
        intro hcon
        exact hg ⟨hcon.1, hcon.2⟩
      have h2 : stepEv Ev.anim s = s := animFire_spent s hanim
      have h3 : stepEv Ev.next s = s := by simp [stepEv, hbtn]
      rw [hsub, h2, h3]
      exact ⟨hsum, hanim, hbtn⟩

/-! ### Claim theorems -/

/-- C2: for every correct answer with prior streak `s` and remaining time
`t`, `handleAnswer` awards `round((10 + max(0, t)) * (1 + (s / 3) * 0.1))`
points and sets the streak to `s + 1`; the multiplier is `1.0` for
streaks below 3, `1.1` for 3-5, and `1.2` for 6-8. -/
theorem c2_correct_answer_scoring (s : GameState) (a : String) (q : Question)
    (hb : s.nextBtnDisabled = true) (hq : s.questions[s.currIndex]? = some q)
    (hc : a = q.correct_answer) :
    (handleAnswer a s).score =
      s.score +
        round (((10 : ℚ) + ((max 0 s.timeLeft : Int) : ℚ)) *
          (1 + ((s.streak / 3 : Nat) : ℚ) * (1 / 10))) ∧
    (handleAnswer a s).streak = s.streak + 1 ∧
    (∀ n : Nat, n < 3 → streakMult n = 1) ∧
    (∀ n : Nat, 3 ≤ n → n < 6 → streakMult n = 11 / 10) ∧
    (∀ n : Nat, 6 ≤ n → n < 9 → streakMult n = 6 / 5) := by
  have hEq := handleAnswer_correct_eq a s q hb hq hc
  refine ⟨?_, ?_, ?_, ?_, ?_⟩
  · rw [hEq]
    have hf := (addXP_frame
      (round (((POINTS_PER_Q : ℚ) + (max 0 s.timeLeft : Int)) * streakMult s.streak))
      { s with
        questions := s.questions.set s.currIndex { q with userSelected := some (some a) }
        timerRunning := false
        score := s.score +
          round (((POINTS_PER_Q : ℚ) + (max 0 s.timeLeft : Int)) * streakMult s.streak)
        streak := s.streak + 1
        correctCount := s.correctCount + 1 }).2.1
    simp only at hf ⊢
    rw [hf]
    norm_num [streakMult, POINTS_PER_Q]
  · rw [hEq]
    have hf := (addXP_frame
      (round (((POINTS_PER_Q : ℚ) + (max 0 s.timeLeft : Int)) * streakMult s.streak))
      { s with
        questions := s.questions.set s.currIndex { q with userSelected := some (some a) }
        timerRunning := false
        score := s.score +
          round (((POINTS_PER_Q : ℚ) + (max 0 s.timeLeft : Int)) * streakMult s.streak)
        streak := s.streak + 1
        correctCount := s.correctCount + 1 }).2.2.1
    simp only at hf ⊢
    rw [hf]
  · intro n hn
    have h3 : n / 3 = 0 := Nat.div_eq_of_lt hn
    simp [streakMult, h3]
  · intro n h3 h6
    have hdiv : n / 3 = 1 := by omega
    rw [streakMult, hdiv]
    norm_num
  · intro n h6 h9
    have hdiv : n / 3 = 2 := by omega
    rw [streakMult, hdiv]
    norm_num

/-- C2 witness: in the fresh two-question session the first question is
live with `timeLeft = 15` and streak 0; answering correctly awards
`round((10 + 15) * 1.0) = 25` points and sets the streak to 1. -/
theorem c2_scoring_witness :
    (handleAnswer "A" (startGame (initState [sampleQ, sampleQ2]))).score =
      (startGame (initState [sampleQ, sampleQ2])).score +
        round (((10 : ℚ) + ((max 0 (startGame (initState [sampleQ, sampleQ2])).timeLeft : Int) : ℚ)) *
          (1 + (((startGame (initState [sampleQ, sampleQ2])).streak / 3 : Nat) : ℚ) * (1 / 10))) ∧
    (handleAnswer "A" (startGame (initState [sampleQ, sampleQ2]))).streak =
      (startGame (initState [sampleQ, sampleQ2])).streak + 1 ∧
    (handleAnswer "A" (startGame (initState [sampleQ, sampleQ2]))).score = 25 := by
  have h := c2_correct_answer_scoring (startGame (initState [sampleQ, sampleQ2])) "A" sampleQ
    (by decide) (by decide) rfl
  refine ⟨h.1, h.2.1, ?_⟩
  rw [h.1]
  have ht : (startGame (initState [sampleQ, sampleQ2])).timeLeft = 15 := by decide
  have hs : (startGame (initState [sampleQ, sampleQ2])).streak = 0 := by decide
  have hsc : (startGame (initState [sampleQ, sampleQ2])).score = 0 := by decide
  rw [ht, hs, hsc]
  norm_num [round_eq]

/-- C4: a timeout awards no points (score and xp are unchanged) and
resets the streak to 0, whatever the prior streak was. -/
theorem c4_timeout_zero_points (s : GameState) :
    (handleTimeOut s).score = s.score ∧ (handleTimeOut s).xp = s.xp ∧
    (handleTimeOut s).streak = 0 :=
  ⟨(handleTimeOut_facts s).1, (handleTimeOut_facts s).2.2.2.2.1,
   (handleTimeOut_facts s).2.1⟩

/-- C5: while the skip lifeline is available, `useSkip` adds exactly
`POINTS_PER_Q = 10` to the score, leaves the streak untouched, advances
to the next question, consumes the lifeline, and — when there is no next
question — leaves no countdown running (it always clears the current
question's interval; on an advance the fresh question starts its own). -/
theorem c5_skip_effects (s : GameState) (h : s.lifelines.skip = true) :
    (useSkip s).score = s.score + 10 ∧
    (useSkip s).streak = s.streak ∧
    (useSkip s).currIndex = s.currIndex + 1 ∧
    (useSkip s).lifelines.skip = false ∧
    (useSkip s).xp = s.xp ∧
    (¬ s.currIndex + 1 < s.questions.length → (useSkip s).timerRunning = false) := by
  rw [useSkip_avail_eq s h]
  have hf := nextQuestion_facts
    { s with
      lifelines := { s.lifelines with skip := false }
      score := s.score + POINTS_PER_Q
      timerRunning := false }
  simp only at hf
  obtain ⟨h1, _, h3, h4, _, _, h7, _, h9, _, _⟩ := hf
  refine ⟨?_, ?_, ?_, ?_, ?_, ?_⟩
  · rw [h3]; rfl
  · rw [h4]
  · rw [h1]
  · rw [h9]
  · rw [h7]
  · intro hlen
    unfold nextQuestion
    simp only
    rw [if_neg hlen]
    exact (endGame_frame _).2.2.2.2.2.2.2.2.2.2.2.2.2.1

/-- C5 witness: skipping the first question of a fresh single-question
session gives score 10, streak 0, index 1, a consumed lifeline, and a
stopped clock. -/
theorem c5_skip_witness :
    (useSkip (startGame (initState [sampleQ]))).score =
      (startGame (initState [sampleQ])).score + 10 ∧
    (useSkip (startGame (initState [sampleQ]))).streak =
      (startGame (initState [sampleQ])).streak ∧
    (useSkip (startGame (initState [sampleQ]))).currIndex =
      (startGame (initState [sampleQ])).currIndex + 1 ∧
    (useSkip (startGame (initState [sampleQ]))).lifelines.skip = false ∧
    (useSkip (startGame (initState [sampleQ]))).timerRunning = false := by
  have h := c5_skip_effects (startGame (initState [sampleQ])) (by decide)
  exact ⟨h.1, h.2.1, h.2.2.1, h.2.2.2.1, h.2.2.2.2.2 (by decide)⟩

/-- C6: on a question with at least two incorrect answers among its
(pairwise distinct) rendered answers, an available 50/50 hides exactly
two distinct incorrect answers, never the correct one, consumes the
lifeline, and changes neither score, streak, nor the counters. -/
theorem c6_fifty_fifty (s : GameState) (q : Question)
    (hl : s.lifelines.fifty = true) (hq : s.questions[s.currIndex]? = some q)
    (hnd : q.answers.Nodup)
    (h2 : 2 ≤ (q.answers.filter (fun c => c ≠ q.correct_answer)).length) :
    (use5050 s).hiddenAnswers.length = 2 ∧
    (use5050 s).hiddenAnswers.Nodup ∧
    q.correct_answer ∉ (use5050 s).hiddenAnswers ∧
    (∀ x ∈ (use5050 s).hiddenAnswers, x ∈ q.answers ∧ x ≠ q.correct_answer) ∧
    (use5050 s).lifelines.fifty = false ∧
    (use5050 s).score = s.score ∧ (use5050 s).streak = s.streak ∧
    (use5050 s).correctCount = s.correctCount ∧
    (use5050 s).wrongCount = s.wrongCount := by
  have hEq := use5050_avail_eq s q hl hq
  have hframe := use5050_frame s
  refine ⟨?_, ?_, ?_, ?_, ?_, hframe.1, hframe.2.1, hframe.2.2.1, hframe.2.2.2.1⟩
  · rw [hEq]
    simp only [List.length_take]
    omega
  · rw [hEq]
    exact ((List.take_sublist _ _).nodup (hnd.filter _))
  · rw [hEq]
    intro hmem
    have := List.mem_filter.1 (List.mem_of_mem_take hmem)
    simp at this
  · rw [hEq]
    intro x hmem
    have hx := List.mem_filter.1 (List.mem_of_mem_take hmem)
    refine ⟨hx.1, ?_⟩
    have := hx.2
    simpa using this
  · rw [hEq]

/-- C6 witness: on the fresh session over `sampleQ` (answers
`A B C D`, correct `A`), 50/50 hides exactly `B` and `C`. -/
theorem c6_fifty_fifty_witness :
    (use5050 (startGame (initState [sampleQ]))).hiddenAnswers.length = 2 ∧
    (use5050 (startGame (initState [sampleQ]))).hiddenAnswers.Nodup ∧
    sampleQ.correct_answer ∉ (use5050 (startGame (initState [sampleQ]))).hiddenAnswers ∧
    (use5050 (startGame (initState [sampleQ]))).lifelines.fifty = false ∧
    (use5050 (startGame (initState [sampleQ]))).score = (startGame (initState [sampleQ])).score := by
  have h := c6_fifty_fifty (startGame (initState [sampleQ])) sampleQ
    (by decide) (by decide) (by decide) (by decide)
  exact ⟨h.1, h.2.1, h.2.2.1, h.2.2.2.2.1, h.2.2.2.2.2.1⟩

/-- C9: the accuracy `endGame` computes is
`round(100 * correctCount / (correctCount + wrongCount))` when at least
one question was answered, and `0` otherwise (no division by zero). -/
theorem c9_accuracy (s : GameState) :
    (endGame s).accuracyPercent =
      if 0 < s.correctCount + s.wrongCount then
        round ((100 * (s.correctCount : ℚ)) / ((s.correctCount : ℚ) + (s.wrongCount : ℚ)))
      else 0 := by
  unfold endGame
  simp only
  split_ifs with h
  · congr 1
    push_cast
    ring
  · rfl

/-- C1 counterexample: a single-question session resolved by timeout
ends with `questionIndex = 1 = totalQuestions` but
`correctCount + wrongCount = 0`: `handleTimeOut` increments neither
counter, so the claimed equation fails both after the recorded outcome
and at completion. -/
theorem c1_timeout_counterexample :
    (playSession [sampleQ] [Move.timeout]).currIndex = 1 ∧
    (playSession [sampleQ] [Move.timeout]).questions.length = 1 ∧
    (playSession [sampleQ] [Move.timeout]).correctCount = 0 ∧
    (playSession [sampleQ] [Move.timeout]).wrongCount = 0 ∧
    ¬((playSession [sampleQ] [Move.timeout]).correctCount +
        (playSession [sampleQ] [Move.timeout]).wrongCount =
      (playSession [sampleQ] [Move.timeout]).currIndex) := by
  decide

/-- C3: the double-submission guard fails inside the 800 ms result
animation window.  After a first correct click the option cards still
have their handlers and the next button is still disabled, so a second
click passes the `nextBtn.disabled === false` guard of `handleAnswer`
and scores the same question again (score 25 → 50, correctCount 1 → 2,
streak 1 → 2).  Only once the animation callback has fired is a further
submit a no-op. -/
theorem c3_double_click_window :
    (stepEv (.submit "A") (startGame (initState [sampleQ]))).score = 25 ∧
    (stepEv (.submit "A") (startGame (initState [sampleQ]))).correctCount = 1 ∧
    (stepEv (.submit "A") (startGame (initState [sampleQ]))).streak = 1 ∧
    (stepEv (.submit "A") (stepEv (.submit "A") (startGame (initState [sampleQ])))).score = 50 ∧
    (stepEv (.submit "A") (stepEv (.submit "A") (startGame (initState [sampleQ])))).correctCount = 2 ∧
    (stepEv (.submit "A") (stepEv (.submit "A") (startGame (initState [sampleQ])))).streak = 2 ∧
    stepEv (.submit "A") (stepEv .anim (stepEv (.submit "A") (startGame (initState [sampleQ])))) =
      stepEv .anim (stepEv (.submit "A") (startGame (initState [sampleQ]))) := by
  have e1 : stepEv (.submit "A") (startGame (initState [sampleQ])) =
      handleAnswer "A" (startGame (initState [sampleQ])) := by
    simp [stepEv, show (startGame (initState [sampleQ])).quizScreen = true from by decide,
      show (startGame (initState [sampleQ])).cardsActive = true from by decide]
  obtain ⟨F1score, F1streak, F1cc, F1wc, F1cards, F1quiz, F1btn, F1anim, F1time, F1xp, F1qs,
      F1idx, _, _, _⟩ :=
    handleAnswer_correct_fields "A" (startGame (initState [sampleQ])) sampleQ
      (by decide) (by decide) rfl
  have hp1 : round (((POINTS_PER_Q : ℚ) +
      (max 0 (startGame (initState [sampleQ])).timeLeft : Int)) *
        streakMult (startGame (initState [sampleQ])).streak) = 25 := by
    rw [show (startGame (initState [sampleQ])).timeLeft = 15 from by decide,
      show (startGame (initState [sampleQ])).streak = 0 from by decide]
    norm_num [streakMult, POINTS_PER_Q, round_eq]
  rw [hp1] at F1score F1xp
  have hb1 : (handleAnswer "A" (startGame (initState [sampleQ]))).nextBtnDisabled = true := by
    rw [F1btn]; decide
  have hq1 : (handleAnswer "A" (startGame (initState [sampleQ]))).questions[
      (handleAnswer "A" (startGame (initState [sampleQ]))).currIndex]? =
      some { sampleQ with userSelected := some (some "A") } := by
    rw [F1qs, F1idx]; decide
  obtain ⟨F2score, F2streak, F2cc, _, _, _, _, _, _, _, _, _, _, _, _⟩ :=
    handleAnswer_correct_fields "A" (handleAnswer "A" (startGame (initState [sampleQ])))
      { sampleQ with userSelected := some (some "A") } hb1 hq1 rfl
  have hp2 : round (((POINTS_PER_Q : ℚ) +
      (max 0 (handleAnswer "A" (startGame (initState [sampleQ]))).timeLeft : Int)) *
        streakMult (handleAnswer "A" (startGame (initState [sampleQ]))).streak) = 25 := by
    rw [F1time, F1streak,
      show (startGame (initState [sampleQ])).timeLeft = 15 from by decide,
      show (startGame (initState [sampleQ])).streak = 0 from by decide]
    norm_num [streakMult, POINTS_PER_Q, round_eq]
  rw [hp2] at F2score
  have e2 : stepEv (.submit "A") (handleAnswer "A" (startGame (initState [sampleQ]))) =
      handleAnswer "A" (handleAnswer "A" (startGame (initState [sampleQ]))) := by
    have hqz : (handleAnswer "A" (startGame (initState [sampleQ]))).quizScreen = true := by
      rw [F1quiz]; decide
    have hca : (handleAnswer "A" (startGame (initState [sampleQ]))).cardsActive = true := by
      rw [F1cards]; decide
    simp [stepEv, hqz, hca]
  refine ⟨?_, ?_, ?_, ?_, ?_, ?_, ?_⟩
  · rw [e1, F1score]; decide
  · rw [e1, F1cc]; decide
  · rw [e1, F1streak]; decide
  · rw [e1, e2, F2score, F1score]; decide
  · rw [e1, e2, F2cc, F1cc]; decide
  · rw [e1, e2, F2streak, F1streak]; decide
  · rw [e1]
    rw [show stepEv Ev.anim (handleAnswer "A" (startGame (initState [sampleQ]))) =
        animFire (handleAnswer "A" (startGame (initState [sampleQ]))) from rfl]
    rw [animFire_pending_eq _ F1anim]
    simp [stepEv]

/-- C7 counterexample: in a single-question session resolved by the skip
lifeline the final score is 10 but `STATE.xp` never grows (`useSkip`
adds to the score without calling `addXP`), while `endGame` still
reports `xpGained = 10`; the XP gained over the session is not the
session's final score. -/
theorem c7_skip_xp_counterexample :
    (playSession [sampleQ] [Move.skip]).score = 10 ∧
    (playSession [sampleQ] [Move.skip]).xp = 0 ∧
    (initState [sampleQ]).xp = 0 ∧
    (playSession [sampleQ] [Move.skip]).xpGained = 10 ∧
    ¬((playSession [sampleQ] [Move.skip]).xp - (initState [sampleQ]).xp =
        (playSession [sampleQ] [Move.skip]).score) := by
  decide

/-- C8: in every reachable session state, advancing to an existing next
question renders it with `isFrozen = false`, and the (possibly stale)
10 s unfreeze callback can only leave the session unfrozen — it never
freezes anything and touches nothing else: time left, running flag,
index, score, streak, and the question list are all unchanged. -/
theorem c8_stale_unfreeze_harmless (qs : List Question) (s : GameState)
    (h : Reachable qs s) :
    (s.currIndex + 1 < s.questions.length → (nextQuestion s).isFrozen = false) ∧
    (unfreezeFire s).isFrozen = false ∧
    (unfreezeFire s).timeLeft = s.timeLeft ∧
    (unfreezeFire s).timerRunning = s.timerRunning ∧
    (unfreezeFire s).currIndex = s.currIndex ∧
    (unfreezeFire s).score = s.score ∧
    (unfreezeFire s).streak = s.streak ∧
    (unfreezeFire s).questions = s.questions := by
  have hf := unfreezeFire_frame s
  refine ⟨nextQuestion_renders_unfrozen s, ?_, hf.2.2.2.2.2.2.2.2.2.2.2.2.2.1,
    hf.2.2.2.2.2.2.2.2.2.2.2.2.1, hf.2.2.2.2.1, hf.1, hf.2.1, hf.2.2.2.2.2.2.1⟩
  by_cases hpu : s.pendingUnfreeze = true
  · unfold unfreezeFire
    simp [hpu]
  · have hpu' : s.pendingUnfreeze = false := by simpa using hpu
    cases hfz : s.isFrozen with
    | false =>
      unfold unfreezeFire
      simp [hpu', hfz]
    | true => exact absurd (reachable_freezeInv qs s h hfz) hpu

/-- C8 witness: the fresh two-question session is reachable (empty event
trace); its advance renders question 1 unfrozen and an unfreeze firing
leaves it unfrozen with the clock untouched. -/
theorem c8_witness :
    (nextQuestion (startGame (initState [sampleQ, sampleQ2]))).isFrozen = false ∧
    (unfreezeFire (startGame (initState [sampleQ, sampleQ2]))).isFrozen = false ∧
    (unfreezeFire (startGame (initState [sampleQ, sampleQ2]))).timeLeft =
      (startGame (initState [sampleQ, sampleQ2])).timeLeft := by
  have h := c8_stale_unfreeze_harmless [sampleQ, sampleQ2]
    (startGame (initState [sampleQ, sampleQ2])) ⟨[], rfl⟩
  exact ⟨h.1 (by decide), h.2.1, h.2.2.1⟩

/-- C7 (amended): over any normal-flow session the score always exceeds
the XP accumulated into `STATE.xp` by exactly `POINTS_PER_Q` once the
skip lifeline has been consumed (and equals it otherwise), because
`useSkip` raises the score without calling `addXP`; separately, the
`xpGained` field that `endGame` reports is assigned the final score. -/
theorem c7_xp_delta_amended :
    (∀ (qs : List Question) (ms : List Move),
      (playSession qs ms).score =
        ((playSession qs ms).xp - (initState qs).xp) +
          (if (playSession qs ms).lifelines.skip then 0 else POINTS_PER_Q)) ∧
    (∀ s : GameState, (endGame s).xpGained = (endGame s).score) := by
  constructor
  · intro qs ms
    unfold playSession
    have hstep : ∀ (s0 : GameState) (m : Move),
        s0.score = (s0.xp - (initState qs).xp) +
          (if s0.lifelines.skip then 0 else POINTS_PER_Q) →
        (playMove s0 m).score = ((playMove s0 m).xp - (initState qs).xp) +
          (if (playMove s0 m).lifelines.skip then 0 else POINTS_PER_Q) := by
      intro s0 m h0
      cases m with
      | answer a =>
        simp only [playMove]
        by_cases hg : s0.quizScreen = true ∧ s0.cardsActive = true
        · have hsub : stepEv (.submit a) s0 = handleAnswer a s0 := by
            simp [stepEv, hg.1, hg.2]
          obtain ⟨p, hp1, hp2, hp3⟩ := handleAnswer_xp_score a s0
          have ha := animFire_frame (handleAnswer a s0)
          simp only [hsub,
            show stepEv Ev.anim (handleAnswer a s0) = animFire (handleAnswer a s0) from rfl]
          simp only [stepEv]
          split
          · have hn := nextQuestion_facts (animFire (handleAnswer a s0))
            simp only [hn.2.2.1, hn.2.2.2.2.2.2.1, hn.2.2.2.2.2.2.2.2.1,
              ha.1, ha.2.2.2.2.2.1, ha.2.2.2.2.2.2.2.1, hp1, hp2, hp3]
            generalize (if s0.lifelines.skip = true then (0 : Int) else POINTS_PER_Q) = c at h0 ⊢
            omega
          · simp only [ha.1, ha.2.2.2.2.2.1, ha.2.2.2.2.2.2.2.1, hp1, hp2, hp3]
            generalize (if s0.lifelines.skip = true then (0 : Int) else POINTS_PER_Q) = c at h0 ⊢
            omega
        · have hsub : stepEv (.submit a) s0 = s0 := by
            simp only [stepEv]
            rw [if_neg]
            intro hcon
            exact hg ⟨hcon.1, hcon.2⟩
          have ha := animFire_frame s0
          simp only [hsub, show stepEv Ev.anim s0 = animFire s0 from rfl]
          simp only [stepEv]
          split
          · have hn := nextQuestion_facts (animFire s0)
            simp only [hn.2.2.1, hn.2.2.2.2.2.2.1, hn.2.2.2.2.2.2.2.2.1,
              ha.1, ha.2.2.2.2.2.1, ha.2.2.2.2.2.2.2.1]
            exact h0
          · simp only [ha.1, ha.2.2.2.2.2.1, ha.2.2.2.2.2.2.2.1]
            exact h0
      | timeout =>
        simp only [playMove]
        split
        · have ht := handleTimeOut_facts
            { s0 with timerRunning := false, timeLeft := 0 }
          simp only at ht
          simp only [stepEv]
          split
          · have hn := nextQuestion_facts (handleTimeOut { s0 with timerRunning := false, timeLeft := 0 })
            simp only [hn.2.2.1, hn.2.2.2.2.2.2.1, hn.2.2.2.2.2.2.2.2.1,
              ht.1, ht.2.2.2.2.1, ht.2.2.2.2.2.2.1]
            exact h0
          · simp only [ht.1, ht.2.2.2.2.1, ht.2.2.2.2.2.2.1]
            exact h0
        · simp only [stepEv]
          split
          · have hn := nextQuestion_facts s0
            simp only [hn.2.2.1, hn.2.2.2.2.2.2.1, hn.2.2.2.2.2.2.2.2.1]
            exact h0
          · exact h0
      | fifty =>
        simp only [playMove, stepEv]
        split
        · have hf := use5050_frame s0
          rw [hf.1, hf.2.2.2.2.2.1, hf.2.2.2.2.2.2.2.1]
          exact h0
        · exact h0
      | freeze =>
        simp only [playMove, stepEv]
        split
        · have hf := useFreeze_frame s0
          rw [hf.1, hf.2.2.2.2.2.1, hf.2.2.2.2.2.2.2.1]
          exact h0
        · exact h0
      | skip =>
        simp only [playMove, stepEv]
        split
        · by_cases hsk : s0.lifelines.skip = false
          · rw [useSkip_spent s0 hsk]
            exact h0
          · have hsk' : s0.lifelines.skip = true := by simpa using hsk
            rw [useSkip_avail_eq s0 hsk']
            have hn := nextQuestion_facts
              { s0 with
                lifelines := { s0.lifelines with skip := false }
                score := s0.score + POINTS_PER_Q
                timerRunning := false }
            simp only at hn
            simp only [hn.2.2.1, hn.2.2.2.2.2.2.1, hn.2.2.2.2.2.2.2.2.1]
            simp only [POINTS_PER_Q]
            simp [hsk', POINTS_PER_Q] at h0
            simp
            omega
        · exact h0
    have hbase : (startGame (initState qs)).score =
        ((startGame (initState qs)).xp - (initState qs).xp) +
          (if (startGame (initState qs)).lifelines.skip then 0 else POINTS_PER_Q) := by
      have hr := renderQuestion_frame
        { initState qs with
          currIndex := 0, score := 0, streak := 0, correctCount := 0, wrongCount := 0
          lifelines := { fifty := true, freeze := true, skip := true }
          isFrozen := false, quizScreen := true }
      simp only at hr
      show (startGame (initState qs)).score = _
      unfold startGame
      rw [hr.2.1, hr.2.2.2.2.2.1, hr.2.2.2.2.2.2.2.2.1]
      simp [initState]
    generalize startGame (initState qs) = s0 at hbase
    induction ms generalizing s0 with
    | nil => exact hbase
    | cons m ms ih => exact ih (playMove s0 m) (hstep s0 m hbase)
  · intro s
    rw [(endGame_frame s).2.2.2.2.2.2.2.2.2.2.2.2.2.2.1, (endGame_frame s).2.1]

/-- C1 (amended): over any normal-flow session whose moves contain no
timeout and no skip — every advanced-past question was resolved by an
answer submission — `correctCount + wrongCount = questionIndex` holds,
and at completion (`questionIndex = totalQuestions`) the counters sum to
the total number of questions.  (A timeout increments neither counter,
so the equation fails once a session contains one; see the
counterexample.) -/
theorem c1_amended_submission_only (qs : List Question) (ms : List Move)
    (h : ∀ m ∈ ms, m ≠ Move.timeout ∧ m ≠ Move.skip) :
    (playSession qs ms).correctCount + (playSession qs ms).wrongCount =
      (playSession qs ms).currIndex ∧
    ((playSession qs ms).currIndex = qs.length →
      (playSession qs ms).correctCount + (playSession qs ms).wrongCount = qs.length) := by
  have main : (playSession qs ms).correctCount + (playSession qs ms).wrongCount =
        (playSession qs ms).currIndex ∧
      (playSession qs ms).pendingAnim = false ∧
      (playSession qs ms).nextBtnDisabled = true := by
    unfold playSession
    have hbase : (startGame (initState qs)).correctCount +
          (startGame (initState qs)).wrongCount = (startGame (initState qs)).currIndex ∧
        (startGame (initState qs)).pendingAnim = false ∧
        (startGame (initState qs)).nextBtnDisabled = true := by
      have hr := renderQuestion_frame
        { initState qs with
          currIndex := 0, score := 0, streak := 0, correctCount := 0, wrongCount := 0
          lifelines := { fifty := true, freeze := true, skip := true }
          isFrozen := false, quizScreen := true }
      simp only at hr
      unfold startGame
      refine ⟨?_, ?_, ?_⟩
      · rw [hr.2.2.2.1, hr.2.2.2.2.1, hr.1]
      · rw [hr.2.2.2.2.2.2.2.2.2.2.1]
        simp [initState]
      · rw [hr.2.2.2.2.2.2.2.2.2.1]
        simp [initState]
    generalize startGame (initState qs) = s0 at hbase
    induction ms generalizing s0 with
    | nil => exact hbase
    | cons m ms ih =>
      have hm := h m (List.mem_cons_self m ms)
      exact ih (fun x hx => h x (List.mem_cons_of_mem m hx)) (playMove s0 m)
        (playMove_normInv s0 m hm.1 hm.2 hbase.1 hbase.2.1 hbase.2.2)
  exact ⟨main.1, fun hidx => by rw [main.1, hidx]⟩

/-- C1 witness: a two-question session with one (wrong) submission and a
50/50 use satisfies the no-timeout/no-skip hypothesis; the counters sum
to the question index, here 1. -/
theorem c1_amended_witness :
    (playSession [sampleQ, sampleQ2] [Move.answer "B", Move.fifty]).correctCount +
        (playSession [sampleQ, sampleQ2] [Move.answer "B", Move.fifty]).wrongCount =
      (playSession [sampleQ, sampleQ2] [Move.answer "B", Move.fifty]).currIndex ∧
    (playSession [sampleQ, sampleQ2] [Move.answer "B", Move.fifty]).currIndex = 1 :=
  ⟨(c1_amended_submission_only [sampleQ, sampleQ2] [Move.answer "B", Move.fifty]
      (by decide)).1,
   by decide⟩

/-- C10: `stateReset` (and `goHome`, which calls it) zeroes the score,
empties the question list, and writes `0` only into the
`currentQuestionIndex` property; `currIndex`, streak, both counters, the
lifeline flags, and `isFrozen` keep their pre-abort values.  Moreover
`currentQuestionIndex` is dead to the session logic: every session event
commutes with an arbitrary write to that field, so the step functions
neither read nor write it. -/
theorem c10_state_reset_frame (s : GameState) :
    (stateReset s).score = 0 ∧
    (stateReset s).questions = [] ∧
    (stateReset s).currentQuestionIndex = some 0 ∧
    (stateReset s).currIndex = s.currIndex ∧
    (stateReset s).streak = s.streak ∧
    (stateReset s).correctCount = s.correctCount ∧
    (stateReset s).wrongCount = s.wrongCount ∧
    (stateReset s).lifelines = s.lifelines ∧
    (stateReset s).isFrozen = s.isFrozen ∧
    (goHome s).score = 0 ∧
    (goHome s).questions = [] ∧
    (goHome s).currentQuestionIndex = some 0 ∧
    (goHome s).currIndex = s.currIndex ∧
    (goHome s).streak = s.streak ∧
    (goHome s).correctCount = s.correctCount ∧
    (goHome s).wrongCount = s.wrongCount ∧
    (goHome s).lifelines = s.lifelines ∧
    (goHome s).isFrozen = s.isFrozen ∧
    (∀ (e : Ev) (v : Option Nat),
      stepEv e { s with currentQuestionIndex := v } =
        { stepEv e s with currentQuestionIndex := v }) := by
  refine ⟨rfl, rfl, rfl, rfl, rfl, rfl, rfl, rfl, rfl, rfl, rfl, rfl, rfl, rfl, rfl, rfl,
    rfl, rfl, ?_⟩
  intro e v
  obtain ⟨qs, i, sc, st, tr, tl, d, lf, fz, xp, lv, cc, wc, xg, ap, ha, nb, ca, pa, pu, qz, cqi⟩ := s
  cases e <;>
    simp only [stepEv, handleAnswer, addXP, animFire, tick, handleTimeOut, nextQuestion,
      renderQuestion, endGame, use5050, useFreeze, useSkip, unfreezeFire, questionDuration] <;>
    (try dsimp only) <;>
    (repeat' split) <;> rfl

end QuizMaster
